import Mathlib

/-!
Verification of the sky-drop physics core.

The fixed-timestep integrator (`src/physics/integration.ts`) is embedded over
exact rationals `ℚ`; the aerodynamic force model (`src/physics/simulation.ts`
and `src/physics/constants.ts`) is embedded over the reals `ℝ` because it uses
`Math.exp` and `Math.sqrt`.  JavaScript numbers are modelled as exact
arithmetic.
-/

namespace SkyDrop

/-- 3D vector with named components, mirroring the `{x, y, z}` object literals
used throughout the source. -/
structure Vec3 (α : Type) where
  x : α
  y : α
  z : α
deriving DecidableEq, Repr

/-! ## Integrator constants (`src/physics/constants.ts`) -/

/-- Fixed physics timestep (seconds) — 120 Hz for stability. -/
def PHYSICS_DT : ℚ := 1 / 120

/-- Maximum frame delta to prevent spiral of death (seconds). -/
def MAX_FRAME_DELTA : ℚ := 0.1

/-! ## Fixed-timestep accumulator (`src/physics/integration.ts`) -/

/-- Physics accumulator state. -/
structure PhysicsAccumulator where
  accumulator : ℚ
  prevPosition : Vec3 ℚ
  currentPosition : Vec3 ℚ
  prevVelocity : Vec3 ℚ
  currentVelocity : Vec3 ℚ
deriving DecidableEq, Repr

/-- Create initial accumulator state (`createAccumulator`). -/
def createAccumulator (position velocity : Vec3 ℚ) : PhysicsAccumulator :=
  { accumulator := 0
    prevPosition := position
    currentPosition := position
    prevVelocity := velocity
    currentVelocity := velocity }

/-- Step function signature for physics update (`PhysicsStepFn`). -/
def PhysicsStepFn : Type :=
  Vec3 ℚ → Vec3 ℚ → ℚ → Vec3 ℚ × Vec3 ℚ

/-- One iteration of the `while` loop body of `updatePhysics`: snapshot the
current state as previous, invoke the step function at exactly `PHYSICS_DT`,
store the result as current, subtract `PHYSICS_DT` from the accumulator. -/
def stepOnce (stepFn : PhysicsStepFn) (acc : PhysicsAccumulator) :
    PhysicsAccumulator :=
  let result := stepFn acc.currentPosition acc.currentVelocity PHYSICS_DT
  { accumulator := acc.accumulator - PHYSICS_DT
    prevPosition := acc.currentPosition
    currentPosition := result.1
    prevVelocity := acc.currentVelocity
    currentVelocity := result.2 }

/-- The `while (accumulator.accumulator >= PHYSICS_DT)` loop of
`updatePhysics`, written as a recursive function.  Returns the final
accumulator together with the number of discrete steps executed. -/
def runSteps (stepFn : PhysicsStepFn) (acc : PhysicsAccumulator) :
    PhysicsAccumulator × ℕ :=
  if h : PHYSICS_DT ≤ acc.accumulator then
    let rest := runSteps stepFn (stepOnce stepFn acc)
    (rest.1, rest.2 + 1)
  else
    (acc, 0)
termination_by Nat.floor (acc.accumulator / PHYSICS_DT)
decreasing_by
  simp only [stepOnce]
  have hdt : (0 : ℚ) < PHYSICS_DT := by norm_num [PHYSICS_DT]
  have hsub : (acc.accumulator - PHYSICS_DT) / PHYSICS_DT
      = acc.accumulator / PHYSICS_DT - 1 := by
    field_simp
  have hone : (1 : ℚ) ≤ acc.accumulator / PHYSICS_DT :=
    (one_le_div hdt).mpr h
  have hfl : (1 : ℕ) ≤ Nat.floor (acc.accumulator / PHYSICS_DT) := by
    exact Nat.le_floor (by exact_mod_cast hone)
  simp only [hsub]
  calc Nat.floor (acc.accumulator / PHYSICS_DT - 1)
      = Nat.floor (acc.accumulator / PHYSICS_DT - (1 : ℕ)) := by norm_num
    _ = Nat.floor (acc.accumulator / PHYSICS_DT) - 1 := Nat.floor_sub_nat _ 1
    _ < Nat.floor (acc.accumulator / PHYSICS_DT) := by omega

/-- Update physics with fixed timestep accumulator pattern (`updatePhysics`).
The source mutates `accumulator` in place and returns the step count; here the
updated accumulator is returned alongside the count. -/
def updatePhysics (acc : PhysicsAccumulator) (frameDelta : ℚ)
    (stepFn : PhysicsStepFn) : PhysicsAccumulator × ℕ :=
  let clampedDelta := min frameDelta MAX_FRAME_DELTA
  runSteps stepFn { acc with accumulator := acc.accumulator + clampedDelta }

/-- A sequence of frame updates: fold `updatePhysics` over a list of frame
deltas, accumulating the total step count.  Models repeated per-frame calls
made by the host. -/
def runFrames (stepFn : PhysicsStepFn) (acc : PhysicsAccumulator) :
    List ℚ → PhysicsAccumulator × ℕ
  | [] => (acc, 0)
  | d :: ds =>
    let r := updatePhysics acc d stepFn
    let rest := runFrames stepFn r.1 ds
    (rest.1, r.2 + rest.2)

/-! ## Force-model constants (`src/physics/constants.ts`), over `ℝ` -/

/-- Standard gravitational acceleration (m/s²). -/
def GRAVITY : ℝ := 9.80665

/-- Sea level air density (kg/m³) — ISA standard. -/
def RHO_SEA_LEVEL : ℝ := 1.225

/-- Atmospheric scale height (m) — for exponential density model. -/
def SCALE_HEIGHT : ℝ := 8500

/-- Skydiver mass including equipment (kg). -/
def MASS_SKYDIVER : ℝ := 80

/-- Effective mass under deployed canopy (kg). -/
def MASS_WITH_CANOPY : ℝ := 90

/-- Drag configuration: name, drag coefficient `Cd`, cross-sectional area `A`,
convenience factor `k = 0.5 * Cd * A`, and reference terminal velocity. -/
structure DragConfiguration where
  name : String
  Cd : ℝ
  A : ℝ
  k : ℝ
  terminalVelocitySeaLevel : ℝ

/-- Belly-to-earth stable position (box position). -/
def DRAG_BELLY : DragConfiguration :=
  { name := "belly", Cd := 1.0, A := 0.95, k := 0.5 * 1.0 * 0.95
    terminalVelocitySeaLevel := 53 }

/-- Head-down dive position. -/
def DRAG_DIVE : DragConfiguration :=
  { name := "dive", Cd := 0.5, A := 0.35, k := 0.5 * 0.5 * 0.35
    terminalVelocitySeaLevel := 85 }

/-- Arch/spread position (max drag). -/
def DRAG_ARCH : DragConfiguration :=
  { name := "arch", Cd := 1.3, A := 1.1, k := 0.5 * 1.3 * 1.1
    terminalVelocitySeaLevel := 42 }

/-- Tracking position. -/
def DRAG_TRACK : DragConfiguration :=
  { name := "track", Cd := 0.8, A := 0.6, k := 0.5 * 0.8 * 0.6
    terminalVelocitySeaLevel := 65 }

/-- Ram-air parachute (main canopy). -/
def DRAG_PARACHUTE : DragConfiguration :=
  { name := "parachute", Cd := 0.8, A := 25, k := 0.5 * 0.8 * 25
    terminalVelocitySeaLevel := 5 }

/-- Base forward speed under canopy at full glide (m/s). -/
def PARACHUTE_FORWARD_SPEED : ℝ := 12

/-- Descent rate under full brakes (m/s). -/
def PARACHUTE_BRAKE_DESCENT : ℝ := 6

/-- Descent rate at full glide (m/s). -/
def PARACHUTE_GLIDE_DESCENT : ℝ := 4

/-- Total deployment duration (seconds). -/
def DEPLOYMENT_DURATION : ℝ := 4.0

/-- Center point of sigmoid curve (seconds into deployment). -/
def DEPLOYMENT_SIGMOID_CENTER : ℝ := 2.0

/-- Sigmoid steepness factor (higher = faster transition). -/
def DEPLOYMENT_SIGMOID_STEEPNESS : ℝ := 3.0

/-- Tracking forward thrust (N). -/
def TRACK_THRUST : ℝ := 400

/-- Canopy turn rate (rad/s per unit input).  Over `ℚ` because it is consumed
only by `calculateTurnRate`, which is pure rational arithmetic. -/
def CANOPY_TURN_RATE : ℚ := 0.8

/-- Flare lift impulse (N). -/
def FLARE_LIFT_FORCE : ℝ := 800

/-- Torque applied for body rotation in freefall (N·m). -/
def FREEFALL_ROTATION_TORQUE : ℝ := 50

/-- Air density at a given altitude, exponential atmosphere model
(`getAirDensity`). -/
noncomputable def getAirDensity (altitude : ℝ) : ℝ :=
  RHO_SEA_LEVEL * Real.exp (-altitude / SCALE_HEIGHT)

/-- Sigmoid deployment curve (`getDeploymentFactor`):
`1 / (1 + e^(-steepness * (t - center)))`. -/
noncomputable def getDeploymentFactor (t : ℝ) : ℝ :=
  1 / (1 + Real.exp (-DEPLOYMENT_SIGMOID_STEEPNESS * (t - DEPLOYMENT_SIGMOID_CENTER)))

/-- Deployment factor as computed by the `Player` component each frame while
under canopy: the sigmoid value, overwritten with `1.0` once the deployment
time exceeds `DEPLOYMENT_DURATION` (`src/components/Player.tsx`). -/
noncomputable def playerDeploymentFactor (deploymentTime : ℝ) : ℝ :=
  if DEPLOYMENT_DURATION < deploymentTime then 1.0
  else getDeploymentFactor deploymentTime

/-! ## Vector helpers (`src/physics/integration.ts`), over `ℝ` -/

/-- Velocity magnitude (`velocityMagnitude`). -/
noncomputable def velocityMagnitude (v : Vec3 ℝ) : ℝ :=
  Real.sqrt (v.x * v.x + v.y * v.y + v.z * v.z)

/-- Normalize a vector (`normalize`); returns the zero vector when the
magnitude is zero. -/
noncomputable def normalize (v : Vec3 ℝ) : Vec3 ℝ :=
  if velocityMagnitude v = 0 then ⟨0, 0, 0⟩
  else ⟨v.x / velocityMagnitude v, v.y / velocityMagnitude v,
        v.z / velocityMagnitude v⟩

/-! ## Force model (`src/physics/simulation.ts`) -/

/-- Control inputs for physics simulation (`PhysicsControls`). -/
structure PhysicsControls where
  dive : Bool
  arch : Bool
  left : Bool
  right : Bool
  track : Bool
  flare : Bool
deriving DecidableEq, Repr

/-- Drag configuration for current body position
(`getDragConfigForPosition`). -/
def getDragConfigForPosition (controls : PhysicsControls)
    (isCanopy : Bool) : DragConfiguration :=
  if isCanopy then DRAG_PARACHUTE
  else if controls.dive then DRAG_DIVE
  else if controls.arch then DRAG_ARCH
  else if controls.track then DRAG_TRACK
  else DRAG_BELLY

/-- The effective drag factor `effectiveK` selected inside `calculateForces`:
under canopy, a linear interpolation between the belly and parachute `k`
weighted by deployment factor; otherwise the `k` of the selected freefall
configuration. -/
def effectiveDragK (controls : PhysicsControls) (isCanopy : Bool)
    (deploymentFactor : ℝ) : ℝ :=
  if isCanopy then
    DRAG_BELLY.k + (DRAG_PARACHUTE.k - DRAG_BELLY.k) * deploymentFactor
  else (getDragConfigForPosition controls false).k

/-- The force components returned by `calculateForces`. -/
structure Forces where
  totalForce : Vec3 ℝ
  dragForce : Vec3 ℝ
  gravityForce : Vec3 ℝ
  thrustForce : Vec3 ℝ
  liftForce : Vec3 ℝ

/-- All forces acting on the skydiver (`calculateForces`).  The source builds
`liftForce` by mutation (`liftForce.y = …` then `liftForce.y += …`,
`liftForce.x += …`); here each branch produces the final vector directly. -/
noncomputable def calculateForces (position velocity : Vec3 ℝ)
    (controls : PhysicsControls) (isCanopy : Bool)
    (deploymentFactor : ℝ) : Forces :=
  let altitude := max 0 position.y
  let rho := getAirDensity altitude
  let speed := velocityMagnitude velocity
  let mass := if isCanopy then MASS_WITH_CANOPY else MASS_SKYDIVER
  let gravityForce : Vec3 ℝ := ⟨0, -mass * GRAVITY, 0⟩
  let effectiveK := effectiveDragK controls isCanopy deploymentFactor
  let dragForce : Vec3 ℝ :=
    if 0.01 < speed then
      let dragMagnitude := rho * speed * speed * effectiveK
      let velNorm := normalize velocity
      ⟨-velNorm.x * dragMagnitude, -velNorm.y * dragMagnitude,
       -velNorm.z * dragMagnitude⟩
    else ⟨0, 0, 0⟩
  let thrustForce : Vec3 ℝ :=
    if isCanopy = false ∧ controls.track = true then ⟨0, 0, -TRACK_THRUST⟩
    else ⟨0, 0, 0⟩
  let liftForce : Vec3 ℝ :=
    if isCanopy = true ∧ 0.3 < deploymentFactor then
      let effectiveDeployment := min 1 ((deploymentFactor - 0.3) / 0.7)
      let currentHorizontalSpeed :=
        Real.sqrt (velocity.x ^ 2 + velocity.z ^ 2)
      let targetDescentRate :=
        if controls.flare = true ∨ controls.arch = true then
          PARACHUTE_BRAKE_DESCENT
        else if controls.dive = true then PARACHUTE_GLIDE_DESCENT * 1.3
        else (PARACHUTE_GLIDE_DESCENT + PARACHUTE_BRAKE_DESCENT) / 2
      let targetForwardSpeed :=
        if controls.flare = true ∨ controls.arch = true then
          PARACHUTE_FORWARD_SPEED * 0.3
        else if controls.dive = true then PARACHUTE_FORWARD_SPEED * 1.2
        else PARACHUTE_FORWARD_SPEED
      let flareLiftY :=
        if (controls.flare = true ∨ controls.arch = true) ∧
            5 < currentHorizontalSpeed then
          FLARE_LIFT_FORCE * effectiveDeployment * (currentHorizontalSpeed / 15)
        else 0
      let currentDescentRate := -velocity.y
      let descentError := targetDescentRate - currentDescentRate
      let verticalForce := descentError * 100 * effectiveDeployment
      let currentForwardSpeed :=
        Real.sqrt (velocity.x ^ 2 + velocity.z ^ 2)
      let forwardError := targetForwardSpeed - currentForwardSpeed
      if 0.5 < currentForwardSpeed then
        let headingX := velocity.x / currentForwardSpeed
        let headingZ := velocity.z / currentForwardSpeed
        let forwardForce := forwardError * 30 * effectiveDeployment
        ⟨headingX * forwardForce, flareLiftY + verticalForce,
         headingZ * forwardForce⟩
      else
        ⟨0, flareLiftY + verticalForce,
         forwardError * 30 * effectiveDeployment * (-1)⟩
    else ⟨0, 0, 0⟩
  { totalForce :=
      ⟨gravityForce.x + dragForce.x + thrustForce.x + liftForce.x,
       gravityForce.y + dragForce.y + thrustForce.y + liftForce.y,
       gravityForce.z + dragForce.z + thrustForce.z + liftForce.z⟩
    dragForce := dragForce
    gravityForce := gravityForce
    thrustForce := thrustForce
    liftForce := liftForce }

/-- The result record of `physicsStep`. -/
structure StepResult where
  position : Vec3 ℝ
  velocity : Vec3 ℝ
  acceleration : Vec3 ℝ
  gForce : ℝ

/-- One physics integration step using semi-implicit Euler (`physicsStep`). -/
noncomputable def physicsStep (position velocity : Vec3 ℝ)
    (controls : PhysicsControls) (isCanopy : Bool)
    (deploymentFactor dt : ℝ) : StepResult :=
  let mass := if isCanopy then MASS_WITH_CANOPY else MASS_SKYDIVER
  let forces := calculateForces position velocity controls isCanopy deploymentFactor
  let acceleration : Vec3 ℝ :=
    ⟨forces.totalForce.x / mass, forces.totalForce.y / mass,
     forces.totalForce.z / mass⟩
  let newVelocity : Vec3 ℝ :=
    ⟨velocity.x + acceleration.x * dt, velocity.y + acceleration.y * dt,
     velocity.z + acceleration.z * dt⟩
  let newPosition : Vec3 ℝ :=
    ⟨position.x + newVelocity.x * dt, position.y + newVelocity.y * dt,
     position.z + newVelocity.z * dt⟩
  let dragMagnitude := velocityMagnitude forces.dragForce
  let liftMagnitude := max 0 forces.liftForce.y
  let feltForce := dragMagnitude + liftMagnitude
  { position := newPosition
    velocity := newVelocity
    acceleration := acceleration
    gForce := feltForce / (mass * GRAVITY) }

/-! ## Classification helpers (`src/physics/simulation.ts`), over `ℚ` -/

/-- Landing quality (`LandingQuality`). -/
inductive LandingQuality where
  | perfect
  | good
  | hard
  | crash
deriving DecidableEq, Repr

/-- Classify landing quality based on vertical speed (`classifyLanding`). -/
def classifyLanding (verticalSpeed : ℚ) : LandingQuality :=
  let absSpeed := |verticalSpeed|
  if absSpeed < 3 then .perfect
  else if absSpeed < 5 then .good
  else if absSpeed < 8 then .hard
  else .crash

/-- Horizontal turn rate for canopy (`calculateTurnRate`).  The source does
`let turnInput = 0; if (left) turnInput = 1; if (right) turnInput = -1;` —
the later assignment wins, modelled by the nested lets. -/
def calculateTurnRate (controls : PhysicsControls)
    (deploymentFactor : ℚ) : ℚ :=
  if deploymentFactor < 0.5 then 0
  else
    let turnInput0 : ℚ := 0
    let turnInput1 : ℚ := if controls.left then 1 else turnInput0
    let turnInput2 : ℚ := if controls.right then -1 else turnInput1
    turnInput2 * CANOPY_TURN_RATE * deploymentFactor

/-! ## Integrator lemmas -/

lemma PHYSICS_DT_pos : (0 : ℚ) < PHYSICS_DT := by norm_num [PHYSICS_DT]

lemma MAX_FRAME_DELTA_nonneg : (0 : ℚ) ≤ MAX_FRAME_DELTA := by
  norm_num [MAX_FRAME_DELTA]

lemma stepOnce_accumulator (f : PhysicsStepFn) (acc : PhysicsAccumulator) :
    (stepOnce f acc).accumulator = acc.accumulator - PHYSICS_DT := rfl

lemma runSteps_of_lt (f : PhysicsStepFn) (acc : PhysicsAccumulator)
    (h : acc.accumulator < PHYSICS_DT) : runSteps f acc = (acc, 0) := by
  rw [runSteps.eq_def, dif_neg (not_le.mpr h)]

lemma runSteps_of_ge (f : PhysicsStepFn) (acc : PhysicsAccumulator)
    (h : PHYSICS_DT ≤ acc.accumulator) :
    runSteps f acc =
      ((runSteps f (stepOnce f acc)).1, (runSteps f (stepOnce f acc)).2 + 1) := by
  rw [runSteps.eq_def, dif_pos h]

/-- Full characterization of the while loop: it executes
`⌊accumulator / PHYSICS_DT⌋` steps, leaves a residual equal to the input
accumulator minus the consumed time, and the residual lands in
`[0, PHYSICS_DT)`. -/
lemma runSteps_spec (f : PhysicsStepFn) :
    ∀ (n : ℕ) (acc : PhysicsAccumulator),
      Nat.floor (acc.accumulator / PHYSICS_DT) = n →
      0 ≤ acc.accumulator →
      (runSteps f acc).2 = n ∧
      (runSteps f acc).1.accumulator = acc.accumulator - n * PHYSICS_DT ∧
      0 ≤ (runSteps f acc).1.accumulator ∧
      (runSteps f acc).1.accumulator < PHYSICS_DT := by
  intro n
  induction n with
  | zero =>
    intro acc hn h0
    have hlt : acc.accumulator / PHYSICS_DT < 1 := by
      have := Nat.floor_eq_zero.mp hn
      exact this
    have hacc : acc.accumulator < PHYSICS_DT := by
      have := (div_lt_one PHYSICS_DT_pos).mp hlt
      exact this
    rw [runSteps_of_lt f acc hacc]
    refine ⟨rfl, by push_cast; ring, h0, hacc⟩
  | succ n ih =>
    intro acc hn h0
    have hdiv : (0 : ℚ) ≤ acc.accumulator / PHYSICS_DT :=
      div_nonneg h0 PHYSICS_DT_pos.le
    have hge : PHYSICS_DT ≤ acc.accumulator := by
      have h1 : (1 : ℕ) ≤ Nat.floor (acc.accumulator / PHYSICS_DT) := by omega
      have h2 : ((1 : ℕ) : ℚ) ≤ acc.accumulator / PHYSICS_DT :=
        (Nat.le_floor_iff hdiv).mp h1
      rw [Nat.cast_one] at h2
      exact (one_le_div PHYSICS_DT_pos).mp h2
    have hsub : (acc.accumulator - PHYSICS_DT) / PHYSICS_DT
        = acc.accumulator / PHYSICS_DT - ((1 : ℕ) : ℚ) := by
      push_cast
      rw [sub_div, div_self (ne_of_gt PHYSICS_DT_pos)]
    have hfl : Nat.floor ((stepOnce f acc).accumulator / PHYSICS_DT) = n := by
      rw [stepOnce_accumulator, hsub, Nat.floor_sub_nat, hn]
      omega
    have h0' : 0 ≤ (stepOnce f acc).accumulator := by
      rw [stepOnce_accumulator]; linarith
    obtain ⟨hsteps, hres, hlo, hhi⟩ := ih (stepOnce f acc) hfl h0'
    rw [runSteps_of_ge f acc hge]
    refine ⟨by rw [hsteps], ?_, hlo, hhi⟩
    simp only [hres, stepOnce_accumulator]
    push_cast
    ring

/-- Uniqueness of Euclidean division: if `T - S·h` lands in `[0, h)` then
`⌊T / h⌋ = S`. -/
lemma steps_eq_floor {S : ℕ} {T : ℚ} (h1 : 0 ≤ T - S * PHYSICS_DT)
    (h2 : T - S * PHYSICS_DT < PHYSICS_DT) :
    Nat.floor (T / PHYSICS_DT) = S := by
  have hdt := PHYSICS_DT_pos
  have hS : (0 : ℚ) ≤ (S : ℚ) := Nat.cast_nonneg S
  have hT : (0 : ℚ) ≤ T := by nlinarith
  rw [Nat.floor_eq_iff (by positivity)]
  constructor
  · rw [le_div_iff₀ hdt]; linarith
  · rw [div_lt_iff₀ hdt]; linarith

/-- Single-call characterization of `updatePhysics` from a nonnegative
residual: step count is `⌊(residual + clamped delta) / PHYSICS_DT⌋`, the new
residual is what remains after consuming those steps, and it lies in
`[0, PHYSICS_DT)`. -/
lemma updatePhysics_spec (f : PhysicsStepFn) (acc : PhysicsAccumulator)
    (frameDelta : ℚ) (hfd : 0 ≤ frameDelta) (h0 : 0 ≤ acc.accumulator) :
    (updatePhysics acc frameDelta f).2
      = Nat.floor ((acc.accumulator + min frameDelta MAX_FRAME_DELTA)
          / PHYSICS_DT) ∧
    (updatePhysics acc frameDelta f).1.accumulator
      = acc.accumulator + min frameDelta MAX_FRAME_DELTA
          - (updatePhysics acc frameDelta f).2 * PHYSICS_DT ∧
    0 ≤ (updatePhysics acc frameDelta f).1.accumulator ∧
    (updatePhysics acc frameDelta f).1.accumulator < PHYSICS_DT := by
  have hmin : 0 ≤ min frameDelta MAX_FRAME_DELTA :=
    le_min hfd MAX_FRAME_DELTA_nonneg
  have h0' : 0 ≤ acc.accumulator + min frameDelta MAX_FRAME_DELTA := by
    linarith
  obtain ⟨hsteps, hres, hlo, hhi⟩ := runSteps_spec f
    (Nat.floor ((acc.accumulator + min frameDelta MAX_FRAME_DELTA)
      / PHYSICS_DT))
    { acc with accumulator := acc.accumulator + min frameDelta MAX_FRAME_DELTA }
    rfl h0'
  simp only [updatePhysics]
  refine ⟨hsteps, ?_, hlo, hhi⟩
  rw [hsteps]
  exact hres

/-- Invariant for a sequence of calls: total consumed time splits exactly into
whole steps plus a final residual in `[0, PHYSICS_DT)`. -/
lemma runFrames_inv (f : PhysicsStepFn) :
    ∀ (deltas : List ℚ) (acc : PhysicsAccumulator),
      (∀ d ∈ deltas, 0 ≤ d) → 0 ≤ acc.accumulator →
      acc.accumulator < PHYSICS_DT →
      ((runFrames f acc deltas).2 : ℚ) * PHYSICS_DT
          + (runFrames f acc deltas).1.accumulator
        = acc.accumulator
          + (deltas.map (fun d => min d MAX_FRAME_DELTA)).sum ∧
      0 ≤ (runFrames f acc deltas).1.accumulator ∧
      (runFrames f acc deltas).1.accumulator < PHYSICS_DT := by
  intro deltas
  induction deltas with
  | nil =>
    intro acc _ h0 h1
    simp [runFrames, h0, h1]
  | cons d ds ih =>
    intro acc hnn h0 _
    have hd : 0 ≤ d := hnn d (List.mem_cons_self d ds)
    have hds : ∀ x ∈ ds, 0 ≤ x := fun x hx => hnn x (List.mem_cons_of_mem d hx)
    obtain ⟨_, hres, hlo, hhi⟩ := updatePhysics_spec f acc d hd h0
    obtain ⟨ihsum, ihlo, ihhi⟩ := ih (updatePhysics acc d f).1 hds hlo hhi
    simp only [runFrames]
    refine ⟨?_, ihlo, ihhi⟩
    push_cast
    rw [List.map_cons, List.sum_cons]
    nlinarith [ihsum, hres]

/-- C1: with a non-negative frame delta and a residual in `[0, PHYSICS_DT)`,
`updatePhysics` executes `⌊(residual + min(frameDelta, MAX_FRAME_DELTA)) /
PHYSICS_DT⌋` steps and restores the residual invariant `0 ≤ residual <
PHYSICS_DT`; consequently over any sequence of non-negative frame deltas
starting from a freshly created accumulator, the total number of steps is
`⌊T / PHYSICS_DT⌋` where `T` is the sum of the clamped deltas. -/
theorem updatePhysics_step_count (f : PhysicsStepFn)
    (acc : PhysicsAccumulator) (frameDelta : ℚ) (hfd : 0 ≤ frameDelta)
    (h0 : 0 ≤ acc.accumulator) (h1 : acc.accumulator < PHYSICS_DT) :
    (updatePhysics acc frameDelta f).2
      = Nat.floor ((acc.accumulator + min frameDelta MAX_FRAME_DELTA)
          / PHYSICS_DT) ∧
    0 ≤ (updatePhysics acc frameDelta f).1.accumulator ∧
    (updatePhysics acc frameDelta f).1.accumulator < PHYSICS_DT ∧
    ∀ (p v : Vec3 ℚ) (deltas : List ℚ), (∀ d ∈ deltas, 0 ≤ d) →
      (runFrames f (createAccumulator p v) deltas).2
        = Nat.floor (((deltas.map (fun d => min d MAX_FRAME_DELTA)).sum)
            / PHYSICS_DT) := by
  obtain ⟨hsteps, _, hlo, hhi⟩ := updatePhysics_spec f acc frameDelta hfd h0
  refine ⟨hsteps, hlo, hhi, ?_⟩
  intro p v deltas hnn
  obtain ⟨hsum, hlo', hhi'⟩ := runFrames_inv f deltas (createAccumulator p v)
    hnn (le_refl 0) PHYSICS_DT_pos
  have hzero : (createAccumulator p v).accumulator = 0 := rfl
  rw [hzero] at hsum
  exact (steps_eq_floor (by linarith) (by linarith)).symm

/-- C1 witness: a concrete call — fresh accumulator, frame delta `1/60`. -/
theorem updatePhysics_step_count_witness :
    (0 : ℚ) ≤ 1 / 60 ∧
    0 ≤ (createAccumulator ⟨0, 0, 0⟩ ⟨0, 0, 0⟩).accumulator ∧
    (createAccumulator ⟨0, 0, 0⟩ ⟨0, 0, 0⟩).accumulator < PHYSICS_DT ∧
    (updatePhysics (createAccumulator ⟨0, 0, 0⟩ ⟨0, 0, 0⟩) (1 / 60)
      (fun p v _ => (p, v))).2
      = Nat.floor (((createAccumulator ⟨0, 0, 0⟩ ⟨0, 0, 0⟩).accumulator
          + min (1 / 60 : ℚ) MAX_FRAME_DELTA) / PHYSICS_DT) :=
  ⟨by norm_num, by norm_num [createAccumulator],
   by norm_num [createAccumulator, PHYSICS_DT],
   (updatePhysics_step_count (fun p v _ => (p, v))
     (createAccumulator ⟨0, 0, 0⟩ ⟨0, 0, 0⟩) (1 / 60) (by norm_num)
     (by norm_num [createAccumulator])
     (by norm_num [createAccumulator, PHYSICS_DT])).1⟩

/-- Upper bound on the while loop: if the accumulator is below
`(n + 1) · PHYSICS_DT` then at most `n` steps run. -/
lemma runSteps_le (f : PhysicsStepFn) :
    ∀ (n : ℕ) (acc : PhysicsAccumulator),
      acc.accumulator < ((n : ℚ) + 1) * PHYSICS_DT →
      (runSteps f acc).2 ≤ n := by
  intro n
  induction n with
  | zero =>
    intro acc h
    have h' : acc.accumulator < PHYSICS_DT := by push_cast at h; linarith
    rw [runSteps_of_lt f acc h']
  | succ n ih =>
    intro acc h
    by_cases hc : PHYSICS_DT ≤ acc.accumulator
    · rw [runSteps_of_ge f acc hc]
      have hlt : (stepOnce f acc).accumulator < ((n : ℚ) + 1) * PHYSICS_DT := by
        rw [stepOnce_accumulator]
        push_cast at h ⊢
        linarith
      have := ih (stepOnce f acc) hlt
      simpa using Nat.succ_le_succ this
    · rw [runSteps_of_lt f acc (not_le.mp hc)]
      exact Nat.zero_le _

/-- C9: from a residual in `[0, PHYSICS_DT)`, `updatePhysics` always
terminates within `MAX_FRAME_DELTA / PHYSICS_DT = 12` discrete steps, for any
frame delta; the consumed time is clamped to at most `MAX_FRAME_DELTA`, so the
call behaves exactly as if it had been handed the clamped delta — excess time
is discarded in that call, never carried into a later call. -/
theorem updatePhysics_bounded_steps (f : PhysicsStepFn)
    (acc : PhysicsAccumulator) (frameDelta : ℚ) (h0 : 0 ≤ acc.accumulator)
    (h1 : acc.accumulator < PHYSICS_DT) :
    (updatePhysics acc frameDelta f).2 ≤ 12 ∧
    MAX_FRAME_DELTA / PHYSICS_DT = 12 ∧
    updatePhysics acc frameDelta f
      = updatePhysics acc (min frameDelta MAX_FRAME_DELTA) f := by
  refine ⟨?_, by norm_num [MAX_FRAME_DELTA, PHYSICS_DT], ?_⟩
  · have hmax : MAX_FRAME_DELTA = 12 * PHYSICS_DT := by
      norm_num [MAX_FRAME_DELTA, PHYSICS_DT]
    have hlt : acc.accumulator + min frameDelta MAX_FRAME_DELTA
        < (((12 : ℕ) : ℚ) + 1) * PHYSICS_DT := by
      have := min_le_right frameDelta MAX_FRAME_DELTA
      push_cast
      linarith
    simp only [updatePhysics]
    exact runSteps_le f 12 _ hlt
  · simp only [updatePhysics]
    rw [min_assoc, min_self]

/-- C9 witness: a concrete stalled frame (delta `1000` s) from a fresh
accumulator takes at most 12 steps. -/
theorem updatePhysics_bounded_steps_witness :
    0 ≤ (createAccumulator ⟨0, 0, 0⟩ ⟨0, 0, 0⟩).accumulator ∧
    (createAccumulator ⟨0, 0, 0⟩ ⟨0, 0, 0⟩).accumulator < PHYSICS_DT ∧
    (updatePhysics (createAccumulator ⟨0, 0, 0⟩ ⟨0, 0, 0⟩) 1000
      (fun p v _ => (p, v))).2 ≤ 12 :=
  ⟨by norm_num [createAccumulator],
   by norm_num [createAccumulator, PHYSICS_DT],
   (updatePhysics_bounded_steps (fun p v _ => (p, v))
     (createAccumulator ⟨0, 0, 0⟩ ⟨0, 0, 0⟩) 1000
     (by norm_num [createAccumulator])
     (by norm_num [createAccumulator, PHYSICS_DT])).1⟩

/-- C10: when the residual plus the clamped frame delta is still below
`PHYSICS_DT`, `updatePhysics` reports 0 steps, leaves all four
position/velocity snapshots exactly unchanged, increases the residual by
exactly the clamped delta, and its result does not depend on the step
function at all (the step function is never invoked). -/
theorem updatePhysics_no_step_frame (f : PhysicsStepFn)
    (acc : PhysicsAccumulator) (frameDelta : ℚ)
    (h : acc.accumulator + min frameDelta MAX_FRAME_DELTA < PHYSICS_DT) :
    (updatePhysics acc frameDelta f).2 = 0 ∧
    (updatePhysics acc frameDelta f).1.prevPosition = acc.prevPosition ∧
    (updatePhysics acc frameDelta f).1.currentPosition = acc.currentPosition ∧
    (updatePhysics acc frameDelta f).1.prevVelocity = acc.prevVelocity ∧
    (updatePhysics acc frameDelta f).1.currentVelocity = acc.currentVelocity ∧
    (updatePhysics acc frameDelta f).1.accumulator
      = acc.accumulator + min frameDelta MAX_FRAME_DELTA ∧
    ∀ g : PhysicsStepFn,
      updatePhysics acc frameDelta g = updatePhysics acc frameDelta f := by
  have key : ∀ g : PhysicsStepFn, updatePhysics acc frameDelta g
      = ({ acc with
            accumulator := acc.accumulator + min frameDelta MAX_FRAME_DELTA },
         0) := by
    intro g
    simp only [updatePhysics]
    exact runSteps_of_lt g _ h
  rw [key f]
  exact ⟨rfl, rfl, rfl, rfl, rfl, rfl, fun g => key g⟩

/-- C10 witness: a fresh accumulator at a nonzero state and a frame delta of
`1/240` s (half a physics step) — no step runs. -/
theorem updatePhysics_no_step_frame_witness :
    (createAccumulator ⟨1, 2, 3⟩ ⟨4, 5, 6⟩).accumulator
        + min (1 / 240 : ℚ) MAX_FRAME_DELTA < PHYSICS_DT ∧
    (updatePhysics (createAccumulator ⟨1, 2, 3⟩ ⟨4, 5, 6⟩) (1 / 240)
      (fun p v _ => (p, v))).2 = 0 :=
  ⟨by norm_num [createAccumulator, MAX_FRAME_DELTA, PHYSICS_DT],
   (updatePhysics_no_step_frame (fun p v _ => (p, v))
     (createAccumulator ⟨1, 2, 3⟩ ⟨4, 5, 6⟩) (1 / 240)
     (by norm_num [createAccumulator, MAX_FRAME_DELTA, PHYSICS_DT])).1⟩

/-! ## Classification theorems -/

/-- C3: `classifyLanding` buckets the absolute vertical speed into the
half-open intervals `[0,3) → perfect`, `[3,5) → good`, `[5,8) → hard`,
`[8,∞) → crash`; the absolute value is taken before comparison
(`classifyLanding (-6) = hard`) and each exact boundary value falls into the
higher-severity bucket. -/
theorem classifyLanding_spec :
    (∀ v : ℚ,
      (classifyLanding v = .perfect ↔ |v| < 3) ∧
      (classifyLanding v = .good ↔ 3 ≤ |v| ∧ |v| < 5) ∧
      (classifyLanding v = .hard ↔ 5 ≤ |v| ∧ |v| < 8) ∧
      (classifyLanding v = .crash ↔ 8 ≤ |v|)) ∧
    classifyLanding (-6) = .hard ∧
    classifyLanding 3 = .good ∧
    classifyLanding 5 = .hard ∧
    classifyLanding 8 = .crash := by
  refine ⟨?_, by norm_num [classifyLanding], by norm_num [classifyLanding],
    by norm_num [classifyLanding], by norm_num [classifyLanding]⟩
  intro v
  simp only [classifyLanding]
  split_ifs with h1 h2 h3 <;>
    refine ⟨?_, ?_, ?_, ?_⟩ <;> simp_all <;> intros <;> linarith

/-- C4 counterexample: with both `left` and `right` pressed at full
deployment, `calculateTurnRate` is not `CANOPY_TURN_RATE · d · 0 = 0` as the
claim states — the `right` assignment overwrites the `left` one, giving
`-CANOPY_TURN_RATE`. -/
theorem calculateTurnRate_both_pressed :
    calculateTurnRate
        { dive := false, arch := false, left := true, right := true,
          track := false, flare := false } 1
      ≠ CANOPY_TURN_RATE * 1 * 0 := by
  norm_num [calculateTurnRate, CANOPY_TURN_RATE]

/-- C4 (amended): `calculateTurnRate` is `0` when `deploymentFactor < 0.5`
and otherwise `s · CANOPY_TURN_RATE · deploymentFactor`, where the signed
input `s` is `-1` whenever `right` is pressed (`right` takes precedence over
`left` when both are held), `+1` when only `left` is pressed, and `0` when
neither is pressed. -/
theorem calculateTurnRate_spec (c : PhysicsControls) (d : ℚ) :
    calculateTurnRate c d =
      if d < (0.5 : ℚ) then 0
      else (if c.right then -1 else if c.left then 1 else 0)
          * CANOPY_TURN_RATE * d := by
  cases hr : c.right <;> cases hl : c.left <;>
    simp [calculateTurnRate, hr, hl]

/-! ## Force-model theorems -/

/-- C2: `physicsStep` computes the total force as
gravity + drag + thrust + lift via `calculateForces`, the acceleration as
`totalForce / mass`, the new velocity as `velocity + acceleration·dt`, and the
new position from the **already-updated** velocity
(`position + newVelocity·dt`) — semi-implicit Euler. -/
theorem physicsStep_semi_implicit_euler (p v : Vec3 ℝ) (c : PhysicsControls)
    (canopy : Bool) (d dt : ℝ) :
    (calculateForces p v c canopy d).totalForce =
      ⟨(calculateForces p v c canopy d).gravityForce.x
          + (calculateForces p v c canopy d).dragForce.x
          + (calculateForces p v c canopy d).thrustForce.x
          + (calculateForces p v c canopy d).liftForce.x,
        (calculateForces p v c canopy d).gravityForce.y
          + (calculateForces p v c canopy d).dragForce.y
          + (calculateForces p v c canopy d).thrustForce.y
          + (calculateForces p v c canopy d).liftForce.y,
        (calculateForces p v c canopy d).gravityForce.z
          + (calculateForces p v c canopy d).dragForce.z
          + (calculateForces p v c canopy d).thrustForce.z
          + (calculateForces p v c canopy d).liftForce.z⟩ ∧
    (physicsStep p v c canopy d dt).acceleration =
      ⟨(calculateForces p v c canopy d).totalForce.x
          / (if canopy then MASS_WITH_CANOPY else MASS_SKYDIVER),
        (calculateForces p v c canopy d).totalForce.y
          / (if canopy then MASS_WITH_CANOPY else MASS_SKYDIVER),
        (calculateForces p v c canopy d).totalForce.z
          / (if canopy then MASS_WITH_CANOPY else MASS_SKYDIVER)⟩ ∧
    (physicsStep p v c canopy d dt).velocity =
      ⟨v.x + (physicsStep p v c canopy d dt).acceleration.x * dt,
        v.y + (physicsStep p v c canopy d dt).acceleration.y * dt,
        v.z + (physicsStep p v c canopy d dt).acceleration.z * dt⟩ ∧
    (physicsStep p v c canopy d dt).position =
      ⟨p.x + (physicsStep p v c canopy d dt).velocity.x * dt,
        p.y + (physicsStep p v c canopy d dt).velocity.y * dt,
        p.z + (physicsStep p v c canopy d dt).velocity.z * dt⟩ :=
  ⟨rfl, rfl, rfl, rfl⟩

/-- C7: under canopy the effective drag factor used by `calculateForces` is
the linear interpolation `DRAG_BELLY.k + (DRAG_PARACHUTE.k − DRAG_BELLY.k) ·
deploymentFactor`, equal to the belly `k` at factor `0`, to the full-canopy
`k` at factor `1`, and continuous (no discontinuity) in between. -/
theorem effectiveDragK_canopy_lerp :
    (∀ (c : PhysicsControls) (d : ℝ),
      effectiveDragK c true d
        = DRAG_BELLY.k + (DRAG_PARACHUTE.k - DRAG_BELLY.k) * d) ∧
    (∀ c : PhysicsControls, effectiveDragK c true 0 = DRAG_BELLY.k) ∧
    (∀ c : PhysicsControls, effectiveDragK c true 1 = DRAG_PARACHUTE.k) ∧
    ∀ c : PhysicsControls, Continuous (fun d : ℝ => effectiveDragK c true d) := by
  have h : ∀ (c : PhysicsControls) (d : ℝ),
      effectiveDragK c true d
        = DRAG_BELLY.k + (DRAG_PARACHUTE.k - DRAG_BELLY.k) * d :=
    fun c d => by simp [effectiveDragK]
  refine ⟨h, fun c => by rw [h]; ring, fun c => by rw [h]; ring, fun c => ?_⟩
  have heq : (fun d : ℝ => effectiveDragK c true d)
      = fun d : ℝ => DRAG_BELLY.k + (DRAG_PARACHUTE.k - DRAG_BELLY.k) * d :=
    funext (h c)
  rw [heq]
  exact continuous_const.add (continuous_const.mul continuous_id)

/-- C8: the deployment sigmoid is strictly increasing, equals `1/2` exactly at
the sigmoid center, stays strictly between `0` and `1` for every finite time,
and the clamped value used by the `Player` caller always lies in `[0, 1]`. -/
theorem getDeploymentFactor_spec :
    StrictMono getDeploymentFactor ∧
    getDeploymentFactor DEPLOYMENT_SIGMOID_CENTER = 1 / 2 ∧
    (∀ t : ℝ, 0 < getDeploymentFactor t ∧ getDeploymentFactor t < 1) ∧
    (∀ t : ℝ, 0 ≤ playerDeploymentFactor t ∧ playerDeploymentFactor t ≤ 1) := by
  have hpos : ∀ t : ℝ, 0 < 1 + Real.exp
      (-DEPLOYMENT_SIGMOID_STEEPNESS * (t - DEPLOYMENT_SIGMOID_CENTER)) :=
    fun t => by positivity
  have hbounds : ∀ t : ℝ, 0 < getDeploymentFactor t ∧ getDeploymentFactor t < 1 := by
    intro t
    rw [getDeploymentFactor]
    constructor
    · exact one_div_pos.mpr (hpos t)
    · rw [div_lt_one (hpos t)]
      linarith [Real.exp_pos
        (-DEPLOYMENT_SIGMOID_STEEPNESS * (t - DEPLOYMENT_SIGMOID_CENTER))]
  refine ⟨?_, ?_, hbounds, ?_⟩
  · intro a b hab
    rw [getDeploymentFactor, getDeploymentFactor]
    have harg : -DEPLOYMENT_SIGMOID_STEEPNESS * (b - DEPLOYMENT_SIGMOID_CENTER)
        < -DEPLOYMENT_SIGMOID_STEEPNESS * (a - DEPLOYMENT_SIGMOID_CENTER) := by
      rw [DEPLOYMENT_SIGMOID_STEEPNESS]
      linarith
    have hexp : Real.exp
          (-DEPLOYMENT_SIGMOID_STEEPNESS * (b - DEPLOYMENT_SIGMOID_CENTER))
        < Real.exp
          (-DEPLOYMENT_SIGMOID_STEEPNESS * (a - DEPLOYMENT_SIGMOID_CENTER)) :=
      Real.exp_lt_exp.mpr harg
    exact one_div_lt_one_div_of_lt (hpos b) (by linarith)
  · have harg : -DEPLOYMENT_SIGMOID_STEEPNESS
        * (DEPLOYMENT_SIGMOID_CENTER - DEPLOYMENT_SIGMOID_CENTER) = 0 := by ring
    rw [getDeploymentFactor, harg, Real.exp_zero]
    norm_num
  · intro t
    rw [playerDeploymentFactor]
    split_ifs
    · norm_num
    · exact ⟨(hbounds t).1.le, (hbounds t).2.le⟩

lemma getAirDensity_pos (altitude : ℝ) : 0 < getAirDensity altitude := by
  rw [getAirDensity, RHO_SEA_LEVEL]
  positivity

lemma velocityMagnitude_nonneg (v : Vec3 ℝ) : 0 ≤ velocityMagnitude v :=
  Real.sqrt_nonneg _

lemma velocityMagnitude_sq (v : Vec3 ℝ) :
    velocityMagnitude v * velocityMagnitude v
      = v.x * v.x + v.y * v.y + v.z * v.z := by
  rw [velocityMagnitude]
  exact Real.mul_self_sqrt (add_nonneg (add_nonneg (mul_self_nonneg v.x)
    (mul_self_nonneg v.y)) (mul_self_nonneg v.z))

/-- C6 counterexample: at the nonzero velocity `(1/200, 0, 0)` the speed
`0.005` is below the `0.01` epsilon guard, so `calculateForces` returns a zero
drag force, while the claimed value `−(v/|v|)·ρ·|v|²·k` is nonzero. -/
theorem calculateForces_drag_guard_counterexample :
    (calculateForces ⟨0, 0, 0⟩ ⟨1 / 200, 0, 0⟩
        { dive := false, arch := false, left := false, right := false,
          track := false, flare := false } false 1).dragForce
      = ⟨0, 0, 0⟩ ∧
    -((1 / 200 : ℝ) / velocityMagnitude ⟨1 / 200, 0, 0⟩)
        * (getAirDensity (max 0 (0 : ℝ))
            * velocityMagnitude ⟨1 / 200, 0, 0⟩
            * velocityMagnitude ⟨1 / 200, 0, 0⟩
            * effectiveDragK
                { dive := false, arch := false, left := false, right := false,
                  track := false, flare := false } false 1)
      ≠ 0 := by
  have hmag : velocityMagnitude ⟨1 / 200, 0, 0⟩ = 1 / 200 := by
    rw [velocityMagnitude]
    rw [show ((1 / 200 : ℝ) * (1 / 200) + 0 * 0 + 0 * 0) = (1 / 200) ^ 2 by
      norm_num]
    rw [Real.sqrt_sq (by norm_num)]
  have hrho : getAirDensity (max 0 (0 : ℝ)) = 1.225 := by
    rw [getAirDensity, RHO_SEA_LEVEL]
    norm_num
  have hk : effectiveDragK
      { dive := false, arch := false, left := false, right := false,
        track := false, flare := false } false 1 = 0.5 * 1.0 * 0.95 := by
    simp [effectiveDragK, getDragConfigForPosition, DRAG_BELLY]
  constructor
  · simp only [calculateForces]
    rw [if_neg]
    rw [hmag]
    norm_num
  · rw [hmag, hrho, hk]
    norm_num

/-- C6 (amended): whenever the speed exceeds the `0.01` epsilon guard (and the
effective drag factor is nonnegative, as it is for every deployment factor in
`[0, 1]`), the drag force of `calculateForces` is exactly antiparallel to the
velocity — `−(velocity/|velocity|)` scaled by the drag magnitude — and its
magnitude is exactly `ρ(altitude) · speed² · k`. -/
theorem calculateForces_drag_antiparallel (p v : Vec3 ℝ)
    (c : PhysicsControls) (canopy : Bool) (d : ℝ)
    (hspeed : 0.01 < velocityMagnitude v)
    (hk : 0 ≤ effectiveDragK c canopy d) :
    (calculateForces p v c canopy d).dragForce =
      ⟨-(v.x / velocityMagnitude v)
          * (getAirDensity (max 0 p.y) * velocityMagnitude v
              * velocityMagnitude v * effectiveDragK c canopy d),
        -(v.y / velocityMagnitude v)
          * (getAirDensity (max 0 p.y) * velocityMagnitude v
              * velocityMagnitude v * effectiveDragK c canopy d),
        -(v.z / velocityMagnitude v)
          * (getAirDensity (max 0 p.y) * velocityMagnitude v
              * velocityMagnitude v * effectiveDragK c canopy d)⟩ ∧
    velocityMagnitude (calculateForces p v c canopy d).dragForce
      = getAirDensity (max 0 p.y) * velocityMagnitude v * velocityMagnitude v
          * effectiveDragK c canopy d := by
  have hm0 : (0 : ℝ) < velocityMagnitude v := lt_trans (by norm_num) hspeed
  have hmne : velocityMagnitude v ≠ 0 := ne_of_gt hm0
  have hnorm : normalize v =
      ⟨v.x / velocityMagnitude v, v.y / velocityMagnitude v,
       v.z / velocityMagnitude v⟩ := by
    rw [normalize, if_neg hmne]
  have hdrag : (calculateForces p v c canopy d).dragForce =
      ⟨-(v.x / velocityMagnitude v)
          * (getAirDensity (max 0 p.y) * velocityMagnitude v
              * velocityMagnitude v * effectiveDragK c canopy d),
        -(v.y / velocityMagnitude v)
          * (getAirDensity (max 0 p.y) * velocityMagnitude v
              * velocityMagnitude v * effectiveDragK c canopy d),
        -(v.z / velocityMagnitude v)
          * (getAirDensity (max 0 p.y) * velocityMagnitude v
              * velocityMagnitude v * effectiveDragK c canopy d)⟩ := by
    simp only [calculateForces]
    rw [if_pos hspeed, hnorm]
  refine ⟨hdrag, ?_⟩
  rw [hdrag]
  have hM : (0 : ℝ) ≤ getAirDensity (max 0 p.y) * velocityMagnitude v
      * velocityMagnitude v * effectiveDragK c canopy d :=
    mul_nonneg (mul_nonneg (mul_nonneg (getAirDensity_pos (max 0 p.y)).le
      (velocityMagnitude_nonneg v)) (velocityMagnitude_nonneg v)) hk
  rw [velocityMagnitude]
  have hsq : velocityMagnitude v * velocityMagnitude v
      = v.x * v.x + v.y * v.y + v.z * v.z := velocityMagnitude_sq v
  rw [show
      -(v.x / velocityMagnitude v)
          * (getAirDensity (max 0 p.y) * velocityMagnitude v
              * velocityMagnitude v * effectiveDragK c canopy d)
        * (-(v.x / velocityMagnitude v)
          * (getAirDensity (max 0 p.y) * velocityMagnitude v
              * velocityMagnitude v * effectiveDragK c canopy d))
      + -(v.y / velocityMagnitude v)
          * (getAirDensity (max 0 p.y) * velocityMagnitude v
              * velocityMagnitude v * effectiveDragK c canopy d)
        * (-(v.y / velocityMagnitude v)
          * (getAirDensity (max 0 p.y) * velocityMagnitude v
              * velocityMagnitude v * effectiveDragK c canopy d))
      + -(v.z / velocityMagnitude v)
          * (getAirDensity (max 0 p.y) * velocityMagnitude v
              * velocityMagnitude v * effectiveDragK c canopy d)
        * (-(v.z / velocityMagnitude v)
          * (getAirDensity (max 0 p.y) * velocityMagnitude v
              * velocityMagnitude v * effectiveDragK c canopy d))
      = ((v.x * v.x + v.y * v.y + v.z * v.z)
            / (velocityMagnitude v * velocityMagnitude v))
          * (getAirDensity (max 0 p.y) * velocityMagnitude v
              * velocityMagnitude v * effectiveDragK c canopy d) ^ 2 by
    field_simp
    ring]
  rw [← hsq]
  rw [div_self (mul_ne_zero hmne hmne), one_mul]
  exact Real.sqrt_sq hM

/-- C6 witness: belly freefall at 20 m/s straight down — the drag force is
the claimed antiparallel vector. -/
theorem calculateForces_drag_antiparallel_witness :
    (0.01 : ℝ) < velocityMagnitude ⟨0, -20, 0⟩ ∧
    0 ≤ effectiveDragK
        { dive := false, arch := false, left := false, right := false,
          track := false, flare := false } false 1 ∧
    (calculateForces ⟨0, 0, 0⟩ ⟨0, -20, 0⟩
        { dive := false, arch := false, left := false, right := false,
          track := false, flare := false } false 1).dragForce =
      ⟨-((0 : ℝ) / velocityMagnitude ⟨0, -20, 0⟩)
          * (getAirDensity (max 0 (0 : ℝ)) * velocityMagnitude ⟨0, -20, 0⟩
              * velocityMagnitude ⟨0, -20, 0⟩
              * effectiveDragK
                  { dive := false, arch := false, left := false,
                    right := false, track := false, flare := false } false 1),
        -((-20 : ℝ) / velocityMagnitude ⟨0, -20, 0⟩)
          * (getAirDensity (max 0 (0 : ℝ)) * velocityMagnitude ⟨0, -20, 0⟩
              * velocityMagnitude ⟨0, -20, 0⟩
              * effectiveDragK
                  { dive := false, arch := false, left := false,
                    right := false, track := false, flare := false } false 1),
        -((0 : ℝ) / velocityMagnitude ⟨0, -20, 0⟩)
          * (getAirDensity (max 0 (0 : ℝ)) * velocityMagnitude ⟨0, -20, 0⟩
              * velocityMagnitude ⟨0, -20, 0⟩
              * effectiveDragK
                  { dive := false, arch := false, left := false,
                    right := false, track := false, flare := false } false 1)⟩ := by
  have hmag : velocityMagnitude ⟨0, -20, 0⟩ = 20 := by
    rw [velocityMagnitude]
    rw [show ((0 : ℝ) * 0 + (-20) * (-20) + 0 * 0) = 20 ^ 2 by norm_num]
    rw [Real.sqrt_sq (by norm_num)]
  have h1 : (0.01 : ℝ) < velocityMagnitude ⟨0, -20, 0⟩ := by
    rw [hmag]; norm_num
  have h2 : 0 ≤ effectiveDragK
      { dive := false, arch := false, left := false, right := false,
        track := false, flare := false } false 1 := by
    simp [effectiveDragK, getDragConfigForPosition, DRAG_BELLY]
    norm_num
  exact ⟨h1, h2,
    (calculateForces_drag_antiparallel ⟨0, 0, 0⟩ ⟨0, -20, 0⟩
      { dive := false, arch := false, left := false, right := false,
        track := false, flare := false } false 1 h1 h2).1⟩

/-- C5 counterexample: canopy, neutral controls, zero velocity, deployment
factor `0.65`.  The code multiplies the descent-rate error by the **remapped**
deployment `min(1, (0.65 − 0.3)/0.7) = 0.5`, giving a vertical lift of `250`,
not the `(target − current) × 100 × 0.65 = 325` that the claim's
"× deployment factor" predicts. -/
theorem calculateForces_lift_gain_counterexample :
    (calculateForces ⟨0, 0, 0⟩ ⟨0, 0, 0⟩
        { dive := false, arch := false, left := false, right := false,
          track := false, flare := false } true 0.65).liftForce.y = 250 ∧
    ((PARACHUTE_GLIDE_DESCENT + PARACHUTE_BRAKE_DESCENT) / 2 - -(0 : ℝ))
        * 100 * 0.65 = 325 ∧
    (250 : ℝ) ≠ 325 := by
  refine ⟨?_, by norm_num [PARACHUTE_GLIDE_DESCENT, PARACHUTE_BRAKE_DESCENT],
    by norm_num⟩
  simp only [calculateForces, PARACHUTE_GLIDE_DESCENT, PARACHUTE_BRAKE_DESCENT,
    FLARE_LIFT_FORCE]
  norm_num [min_def]

/-- C5 (amended): with `isCanopy` true and `deploymentFactor > 0.3`, the
vertical component of the canopy control (lift) force equals
`(target descent rate − current descent rate) × 100 ×
min(1, (deploymentFactor − 0.3)/0.7)` — the gain is weighted by the
**remapped** effective deployment, not by the raw deployment factor — where
the target descent rate is selected by the controls (brake/flare, dive, or
the neutral midpoint), plus, under flare/arch with horizontal speed above 5,
an additional flare-lift term `FLARE_LIFT_FORCE × effective deployment ×
(horizontal speed / 15)`; below the `0.3` threshold the lift force is zero. -/
theorem calculateForces_lift_y (p v : Vec3 ℝ) (c : PhysicsControls) (d : ℝ) :
    (calculateForces p v c true d).liftForce.y =
      if 0.3 < d then
        (if (c.flare = true ∨ c.arch = true)
            ∧ 5 < Real.sqrt (v.x ^ 2 + v.z ^ 2) then
          FLARE_LIFT_FORCE * min 1 ((d - 0.3) / 0.7)
            * (Real.sqrt (v.x ^ 2 + v.z ^ 2) / 15)
        else 0)
        + ((if c.flare = true ∨ c.arch = true then PARACHUTE_BRAKE_DESCENT
            else if c.dive = true then PARACHUTE_GLIDE_DESCENT * 1.3
            else (PARACHUTE_GLIDE_DESCENT + PARACHUTE_BRAKE_DESCENT) / 2)
            - -v.y) * 100 * min 1 ((d - 0.3) / 0.7)
      else 0 := by
  simp only [calculateForces]
  split_ifs <;> first | rfl | tauto

end SkyDrop
